import Mathlib

/-!
Verification of `src/static/admin/js/filtro_carpetas.js`, a (commented-out)
cascading-select controller for a Django admin form: a parent selector
`#id_numeral` drives the contents of a dependent selector `#id_carpeta`
through an AJAX endpoint.  The development below is a shallow embedding of
the controller logic contained in that file: the DOM state of the dependent
select element, the `filtrarCarpetas` handler, the AJAX success and error
callbacks, and the `document.ready` initialization, together with an
event-step semantics in which in-flight AJAX requests resolve
asynchronously.  The literal text of the file is embedded as `fileLines`
to settle claims about the file itself.
-/

namespace FiltroCarpetas

/-- One `<option>` entry of a select element: its `value` attribute, its
display text, and its `data-numeral` attribute when present. -/
structure SelOption where
  value : String
  text : String
  dataNumeral : Option String := none
deriving Repr, DecidableEq

/-- A folder record of the server payload: `carpeta.id` and
`carpeta.ruta_completa` as used by the success handler. -/
structure Carpeta where
  id : String
  ruta_completa : String
deriving Repr, DecidableEq

/-- The JSON payload of a successful response: `data.carpetas`. -/
structure AjaxResponse where
  carpetas : List Carpeta
deriving Repr, DecidableEq

/-- State of the dependent `#id_carpeta` select element: its option list,
its `disabled` property, the value of the currently selected option
(`.val()`, `none` when no option is selected), and its `data-selected`
attribute (never written by the script). -/
structure CarpetaField where
  options : List SelOption
  disabled : Bool
  selectedVal : Option String
  dataSelected : Option String
deriving Repr, DecidableEq

/-- The placeholder entry `<option value="">---------</option>`. -/
def placeholderOption : SelOption :=
  { value := "", text := "---------" }

/-- Effect of `carpetaField.html('<option value="">---------</option>')`:
the option list is replaced by the single placeholder, which the browser
then selects as the first option of the single select. -/
def setHtmlPlaceholder (c : CarpetaField) : CarpetaField :=
  { c with options := [placeholderOption], selectedVal := some "" }

/-- Effect of `carpetaField.append($('<option></option>')...)`: the new
option is appended at the end; the current selection is unchanged. -/
def appendOption (c : CarpetaField) (o : SelOption) : CarpetaField :=
  { c with options := c.options ++ [o] }

/-- Effect of `carpetaField.val(v)`: select the option whose value is `v`
when one exists, otherwise leave no option selected. -/
def setVal (c : CarpetaField) (v : String) : CarpetaField :=
  if v ∈ c.options.map SelOption.value then { c with selectedVal := some v }
  else { c with selectedVal := none }

/-- An AJAX request as issued by `filtrarCarpetas`: the `url` together
with the two `data` parameters `numeral_id` and `app`.  The `app` field is
`window.location.pathname.split('/')[2]`, which is absent (`none`) when
the path has fewer than three segments. -/
structure AjaxRequest where
  url : String
  numeral_id : String
  app : Option String
deriving Repr, DecidableEq

/-- JavaScript `String.prototype.split` with a one-character separator,
on the character list of the string: split at every occurrence of the
separator, keeping empty segments (so `"".split(sep) = [""]`). -/
def jsSplitChar (sep : Char) : List Char → List (List Char)
  | [] => [[]]
  | c :: cs =>
      match jsSplitChar sep cs with
      | [] => if c = sep then [[], []] else [[c]]
      | seg :: rest =>
          if c = sep then [] :: seg :: rest else (c :: seg) :: rest

/-- `window.location.pathname.split('/')[2]` — the third segment of the
`'/'`-split of the page path (`none` when the split has fewer than three
segments, JavaScript `undefined`). -/
def appTag (pathname : String) : Option String :=
  ((jsSplitChar '/' pathname.data).map (fun cs => String.mk cs)).get? 2

/-- Page-level state seen by the controller: the page path, the current
value of the parent `#id_numeral` selector (`""` when empty), the dependent
selector's state, the list of in-flight AJAX requests awaiting a response,
the history of all requests ever issued, and the `console.error` log. -/
structure PageState where
  pathname : String
  numeralVal : String
  carpeta : CarpetaField
  pending : List AjaxRequest
  issued : List AjaxRequest
  errorLog : List String
deriving Repr, DecidableEq

/-- The request built by the `$.ajax` call of `filtrarCarpetas` for a
selected numeral `v` on a page with path `pathname`. -/
def mkRequest (pathname v : String) : AjaxRequest :=
  { url := "/admin/get-carpetas-por-numeral/"
    numeral_id := v
    app := appTag pathname }

/-- The `filtrarCarpetas` function: read the parent value; when it is
empty, reset the dependent selector to the placeholder and disable it and
return without any network call; otherwise enable the dependent selector
and issue one asynchronous request carrying `numeral_id` and `app`. -/
def filtrarCarpetas (s : PageState) : PageState :=
  let numeralSeleccionado := s.numeralVal
  if numeralSeleccionado = "" then
    { s with carpeta :=
        { setHtmlPlaceholder s.carpeta with disabled := true } }
  else
    let req := mkRequest s.pathname numeralSeleccionado
    { s with
      carpeta := { s.carpeta with disabled := false }
      pending := s.pending ++ [req]
      issued := s.issued ++ [req] }

/-- The option built for one record: value `carpeta.id`, text
`carpeta.ruta_completa`. -/
def optionOfCarpeta (k : Carpeta) : SelOption :=
  { value := k.id, text := k.ruta_completa }

/-- The AJAX `success` callback: replace the options by the placeholder,
append one option per record of `data.carpetas` in order, then — when the
`data-selected` attribute holds a truthy (non-empty) value — re-select
it via `carpetaField.val(...)`.  It never touches the `disabled` property
nor issues any request. -/
def onSuccess (s : PageState) (data : AjaxResponse) : PageState :=
  let c := setHtmlPlaceholder s.carpeta
  let c := data.carpetas.foldl (fun c k => appendOption c (optionOfCarpeta k)) c
  let c :=
    match c.dataSelected with
    | some valorActual => if valorActual ≠ "" then setVal c valorActual else c
    | none => c
  { s with carpeta := c }

/-- The AJAX `error` callback: `console.error('Error al cargar las
carpetas')` and nothing else — no retry, no DOM mutation. -/
def onError (s : PageState) : PageState :=
  { s with errorLog := s.errorLog ++ ["Error al cargar las carpetas"] }

/-- Events of the event-driven execution: a user change of the parent
value (which fires the bound `change` handler), and the asynchronous
resolution of the in-flight request at a given index, either successfully
with a payload or with an error. -/
inductive Event where
  | changeNumeral (v : String)
  | ajaxSuccess (i : Nat) (data : AjaxResponse)
  | ajaxError (i : Nat)
deriving Repr, DecidableEq

/-- One step of the event semantics.  A `change` event updates the parent
value and runs `filtrarCarpetas`; a response event removes the resolved
request from the in-flight list and runs the corresponding callback
(events naming no in-flight request do nothing). -/
def step (s : PageState) : Event → PageState
  | Event.changeNumeral v => filtrarCarpetas { s with numeralVal := v }
  | Event.ajaxSuccess i data =>
      if i < s.pending.length then
        onSuccess { s with pending := s.pending.eraseIdx i } data
      else s
  | Event.ajaxError i =>
      if i < s.pending.length then
        onError { s with pending := s.pending.eraseIdx i }
      else s

/-- Run a sequence of events from a state. -/
def run (s : PageState) (es : List Event) : PageState :=
  es.foldl step s

/-- The tail of the `document.ready` handler: when the parent already has
a non-empty value (edit mode), call `filtrarCarpetas` immediately;
otherwise only disable the dependent selector. -/
def pageLoadInit (s : PageState) : PageState :=
  if s.numeralVal = "" then
    { s with carpeta := { s.carpeta with disabled := true } }
  else filtrarCarpetas s

/-- A saved entry of `carpetasOriginales`: `value`, `text` and the
`data-numeral` attribute of one original option. -/
structure OrigOption where
  value : String
  text : String
  numeral : Option String
deriving Repr, DecidableEq

/-- Whole-document state: whether the two fields are present on the page,
the page state, the snapshots `todasLasCarpetas` / `carpetasOriginales`
saved by the ready handler, and whether the `change` handler is bound. -/
structure DomState where
  numeralPresent : Bool
  carpetaPresent : Bool
  page : PageState
  todasLasCarpetas : Option (List SelOption)
  carpetasOriginales : Option (List OrigOption)
  handlerBound : Bool
deriving Repr, DecidableEq

/-- The `document.ready` handler: when both `#id_numeral` and
`#id_carpeta` are found, save the original options, bind
`filtrarCarpetas` to the parent's `change` event and run the initial
branch; otherwise do nothing at all. -/
def scriptInit (d : DomState) : DomState :=
  if d.numeralPresent && d.carpetaPresent then
    let saved := d.page.carpeta.options.map
      (fun o => OrigOption.mk o.value o.text o.dataNumeral)
    { d with
      todasLasCarpetas := some d.page.carpeta.options
      carpetasOriginales := some saved
      handlerBound := true
      page := pageLoadInit d.page }
  else d

/-- One whole-document step: with the handler bound, events behave as in
`step`; with no handler bound, a user change of the parent still changes
the parent's own value but runs no script, and no AJAX callbacks exist. -/
def domStep (d : DomState) : Event → DomState
  | Event.changeNumeral v =>
      if d.handlerBound then
        { d with page := step d.page (Event.changeNumeral v) }
      else { d with page := { d.page with numeralVal := v } }
  | e =>
      if d.handlerBound then { d with page := step d.page e } else d

/-- Run a sequence of events on the whole document. -/
def domRun (d : DomState) (es : List Event) : DomState :=
  es.foldl domStep d

end FiltroCarpetas

namespace FiltroCarpetas

/-- The literal text of `src/static/admin/js/filtro_carpetas.js`, line by
line (the file has 81 lines and no trailing newline). -/
def fileLines : List String := [
  "// (function($) \x7b",
  "//     \x27use strict\x27;",
  "    ",
  "//     $(document).ready(function() \x7b",
  "//         // Obtener los campos",
  "//         var numeralField = $(\x27#id_numeral\x27);",
  "//         var carpetaField = $(\x27#id_carpeta\x27);",
  "        ",
  "//         if (numeralField.length && carpetaField.length) \x7b",
  "//             // Guardar todas las opciones originales de carpetas",
  "//             var todasLasCarpetas = carpetaField.html();",
  "//             var carpetasOriginales = [];",
  "            ",
  "//             carpetaField.find(\x27option\x27).each(function() \x7b",
  "//                 var option = $(this);",
  "//                 carpetasOriginales.push(\x7b",
  "//                     value: option.val(),",
  "//                     text: option.text(),",
  "//                     numeral: option.attr(\x27data-numeral\x27)",
  "//                 \x7d);",
  "//             \x7d);",
  "            ",
  "//             // Función para filtrar carpetas",
  "//             function filtrarCarpetas() \x7b",
  "//                 var numeralSeleccionado = numeralField.val();",
  "                ",
  "//                 if (!numeralSeleccionado) \x7b",
  "//                     // Si no hay numeral seleccionado, limpiar carpetas",
  "//                     carpetaField.html(\x27<option value=\"\">---------</option>\x27);",
  "//                     carpetaField.prop(\x27disabled\x27, true);",
  "//                     return;",
  "//                 \x7d",
  "                ",
  "//                 // Habilitar el campo de carpetas",
  "//                 carpetaField.prop(\x27disabled\x27, false);",
  "                ",
  "//                 // Hacer petición AJAX para obtener carpetas del numeral",
  "//                 $.ajax(\x7b",
  "//                     url: \x27/admin/get-carpetas-por-numeral/\x27,",
  "//                     data: \x7b",
  "//                         \x27numeral_id\x27: numeralSeleccionado,",
  "//                         \x27app\x27: window.location.pathname.split(\x27/\x27)[2] // transparencia, comude, etc.",
  "//                     \x7d,",
  "//                     dataType: \x27json\x27,",
  "//                     success: function(data) \x7b",
  "//                         // Limpiar opciones actuales",
  "//                         carpetaField.html(\x27<option value=\"\">---------</option>\x27);",
  "                        ",
  "//                         // Agregar las carpetas filtradas",
  "//                         $.each(data.carpetas, function(index, carpeta) \x7b",
  "//                             carpetaField.append(",
  "//                                 $(\x27<option></option>\x27)",
  "//                                     .attr(\x27value\x27, carpeta.id)",
  "//                                     .text(carpeta.ruta_completa)",
  "//                             );",
  "//                         \x7d);",
  "                        ",
  "//                         // Si hay un valor previamente seleccionado, mantenerlo",
  "//                         var valorActual = carpetaField.attr(\x27data-selected\x27);",
  "//                         if (valorActual) \x7b",
  "//                             carpetaField.val(valorActual);",
  "//                         \x7d",
  "//                     \x7d,",
  "//                     error: function() \x7b",
  "//                         console.error(\x27Error al cargar las carpetas\x27);",
  "//                     \x7d",
  "//                 \x7d);",
  "//             \x7d",
  "            ",
  "//             // Ejecutar al cambiar el numeral",
  "//             numeralField.on(\x27change\x27, filtrarCarpetas);",
  "            ",
  "//             // Ejecutar al cargar la página (para edición)",
  "//             if (numeralField.val()) \x7b",
  "//                 filtrarCarpetas();",
  "//             \x7d else \x7b",
  "//                 carpetaField.prop(\x27disabled\x27, true);",
  "//             \x7d",
  "//         \x7d",
  "//     \x7d);",
  "// \x7d)(django.jQuery);"
]

/-- A line is a comment line when its first two characters are `//`. -/
def isCommentLine (l : String) : Bool :=
  match l.data with
  | '/' :: '/' :: _ => true
  | _ => false

/-- A line is blank when it consists of space characters only. -/
def isBlankLine (l : String) : Bool :=
  l.data.all (fun c => c == ' ')

/-- A line is inert when it is a comment line or a blank line: it
contributes no executable statement to the script. -/
def inertLine (l : String) : Bool :=
  isCommentLine l || isBlankLine l

end FiltroCarpetas

namespace FiltroCarpetas

/-! Helper lemmas about the embedded operations. -/

theorem setVal_options (c : CarpetaField) (v : String) :
    (setVal c v).options = c.options := by
  unfold setVal; split <;> rfl

theorem setVal_disabled (c : CarpetaField) (v : String) :
    (setVal c v).disabled = c.disabled := by
  unfold setVal; split <;> rfl

theorem foldl_appendOption (data : List Carpeta) (c : CarpetaField) :
    data.foldl (fun c k => appendOption c (optionOfCarpeta k)) c =
      { c with options := c.options ++ data.map optionOfCarpeta } := by
  induction data generalizing c with
  | nil => simp
  | cons k ks ih =>
      rw [List.foldl_cons, ih]
      simp [appendOption, List.append_assoc]

theorem onSuccess_options (s : PageState) (data : AjaxResponse) :
    (onSuccess s data).carpeta.options =
      placeholderOption :: data.carpetas.map optionOfCarpeta := by
  cases hds : s.carpeta.dataSelected with
  | none => simp [onSuccess, foldl_appendOption, setHtmlPlaceholder, hds]
  | some w =>
      by_cases hw : w = "" <;>
        simp [onSuccess, foldl_appendOption, setHtmlPlaceholder, hds, hw,
          setVal_options]

theorem onSuccess_disabled (s : PageState) (data : AjaxResponse) :
    (onSuccess s data).carpeta.disabled = s.carpeta.disabled := by
  cases hds : s.carpeta.dataSelected with
  | none => simp [onSuccess, foldl_appendOption, setHtmlPlaceholder, hds]
  | some w =>
      by_cases hw : w = "" <;>
        simp [onSuccess, foldl_appendOption, setHtmlPlaceholder, hds, hw,
          setVal_disabled]

end FiltroCarpetas

namespace FiltroCarpetas

/-! Concrete fixtures used by witnesses and counterexamples. -/

/-- A freshly reset dependent selector: placeholder only, disabled. -/
def freshCarpeta : CarpetaField :=
  { options := [placeholderOption]
    disabled := true
    selectedVal := some ""
    dataSelected := none }

/-- A fresh admin page on the `transparencia` application with no
numeral selected. -/
def state0 : PageState :=
  { pathname := "/admin/transparencia/documento/add/"
    numeralVal := ""
    carpeta := freshCarpeta
    pending := []
    issued := []
    errorLog := [] }

/-- A sample folder record returned by the server. -/
def carpeta7 : Carpeta :=
  { id := "7", ruta_completa := "Transparencia/Actas" }

/-- A sample successful payload with one record. -/
def resp7 : AjaxResponse :=
  { carpetas := [carpeta7] }

/-- C4. For every parent value change to an empty value, the dependent
selector's options are replaced by exactly the placeholder entry, the
selector is disabled, and no network request is issued (neither the
in-flight list nor the request history changes). -/
theorem c4_empty_change_clears_disables_no_fetch (s : PageState) :
    (step s (Event.changeNumeral "")).carpeta.options = [placeholderOption] ∧
    (step s (Event.changeNumeral "")).carpeta.disabled = true ∧
    (step s (Event.changeNumeral "")).pending = s.pending ∧
    (step s (Event.changeNumeral "")).issued = s.issued := by
  simp [step, filtrarCarpetas, setHtmlPlaceholder]

/-- C5. For every parent value change to a non-empty value, the dependent
selector is enabled and exactly one asynchronous request is issued, to
`/admin/get-carpetas-por-numeral/`, carrying the parent identifier as
`numeral_id` and the context tag `window.location.pathname.split('/')[2]`
as `app`. -/
theorem c5_nonempty_change_enables_and_fetches_once (s : PageState)
    (v : String) (hv : v ≠ "") :
    (step s (Event.changeNumeral v)).carpeta.disabled = false ∧
    (step s (Event.changeNumeral v)).issued = s.issued ++
      [{ url := "/admin/get-carpetas-por-numeral/"
         numeral_id := v
         app := appTag s.pathname }] ∧
    (step s (Event.changeNumeral v)).pending = s.pending ++
      [mkRequest s.pathname v] := by
  simp [step, filtrarCarpetas, hv, mkRequest]

/-- Witness for C5 at a concrete state: changing the numeral to `"5"` on
the fresh `transparencia` page enables the selector and issues the single
request with `numeral_id = "5"` and `app = "transparencia"`. -/
theorem c5_nonempty_change_enables_and_fetches_once_witness :
    (step state0 (Event.changeNumeral "5")).carpeta.disabled = false ∧
    (step state0 (Event.changeNumeral "5")).issued = [] ++
      [{ url := "/admin/get-carpetas-por-numeral/"
         numeral_id := "5"
         app := appTag state0.pathname }] ∧
    (step state0 (Event.changeNumeral "5")).pending = [] ++
      [mkRequest state0.pathname "5"] :=
  c5_nonempty_change_enables_and_fetches_once state0 "5" (by decide)

/-- C8. After a parent value change handler and after the page-load
initialization, the dependent selector is disabled exactly when the parent
selector's value is empty. -/
theorem c8_disabled_iff_parent_empty (s : PageState) (v : String) :
    ((step s (Event.changeNumeral v)).carpeta.disabled = true ↔
      (step s (Event.changeNumeral v)).numeralVal = "") ∧
    ((pageLoadInit s).carpeta.disabled = true ↔
      (pageLoadInit s).numeralVal = "") := by
  constructor
  · by_cases hv : v = "" <;> simp [step, filtrarCarpetas, hv]
  · by_cases hn : s.numeralVal = "" <;>
      simp [pageLoadInit, filtrarCarpetas, hn]

end FiltroCarpetas

namespace FiltroCarpetas

theorem step_ajaxSuccess_of_lt (s : PageState) (i : Nat) (data : AjaxResponse)
    (h : i < s.pending.length) :
    step s (Event.ajaxSuccess i data) =
      onSuccess { s with pending := s.pending.eraseIdx i } data := by
  simp [step, h]

theorem step_ajaxError_of_lt (s : PageState) (i : Nat)
    (h : i < s.pending.length) :
    step s (Event.ajaxError i) =
      onError { s with pending := s.pending.eraseIdx i } := by
  simp [step, h]

theorem step_changeNumeral_nonempty (s : PageState) (v : String)
    (hv : v ≠ "") :
    step s (Event.changeNumeral v) =
      { s with
        numeralVal := v
        carpeta := { s.carpeta with disabled := false }
        pending := s.pending ++ [mkRequest s.pathname v]
        issued := s.issued ++ [mkRequest s.pathname v] } := by
  simp [step, filtrarCarpetas, hv]

/-- C3. For every non-empty parent value whose fetch succeeds returning
`N` records (with no intervening events), the dependent selector is
enabled and holds exactly `N + 1` options: the placeholder first, then one
option per returned record with value `id` and text `ruta_completa`, in
server order. -/
theorem c3_success_populates_in_order (s : PageState) (v : String)
    (hv : v ≠ "") (data : AjaxResponse) :
    (step (step s (Event.changeNumeral v))
        (Event.ajaxSuccess s.pending.length data)).carpeta.disabled = false ∧
    (step (step s (Event.changeNumeral v))
        (Event.ajaxSuccess s.pending.length data)).carpeta.options =
      placeholderOption :: data.carpetas.map optionOfCarpeta ∧
    (step (step s (Event.changeNumeral v))
        (Event.ajaxSuccess s.pending.length data)).carpeta.options.length =
      data.carpetas.length + 1 := by
  rw [step_changeNumeral_nonempty s v hv,
    step_ajaxSuccess_of_lt _ _ _ (by simp)]
  refine ⟨?_, ?_, ?_⟩
  · rw [onSuccess_disabled]
  · rw [onSuccess_options]
  · rw [onSuccess_options]; simp

/-- Witness for C3: on the fresh page, changing the numeral to `"5"` and
resolving the fetch with one record yields an enabled selector holding the
placeholder followed by that record's option. -/
theorem c3_success_populates_in_order_witness :
    (step (step state0 (Event.changeNumeral "5"))
        (Event.ajaxSuccess state0.pending.length resp7)).carpeta.disabled
      = false ∧
    (step (step state0 (Event.changeNumeral "5"))
        (Event.ajaxSuccess state0.pending.length resp7)).carpeta.options =
      placeholderOption :: resp7.carpetas.map optionOfCarpeta ∧
    (step (step state0 (Event.changeNumeral "5"))
        (Event.ajaxSuccess state0.pending.length resp7)).carpeta.options.length
      = resp7.carpetas.length + 1 :=
  c3_success_populates_in_order state0 "5" (by decide) resp7

end FiltroCarpetas

namespace FiltroCarpetas

/-- C6. On every successful fetch, if the `data-selected` attribute of the
dependent selector records a value `V` and `V` occurs among the ids of the
returned records, then after repopulation the selected value is `V`. -/
theorem c6_restores_recorded_selection (s : PageState) (i : Nat)
    (data : AjaxResponse) (V : String)
    (hpend : i < s.pending.length)
    (hrec : s.carpeta.dataSelected = some V)
    (hmem : V ∈ data.carpetas.map Carpeta.id) :
    (step s (Event.ajaxSuccess i data)).carpeta.selectedVal = some V := by
  rw [step_ajaxSuccess_of_lt _ _ _ hpend]
  by_cases hV : V = ""
  · subst hV
    simp [onSuccess, foldl_appendOption, setHtmlPlaceholder, hrec]
  · have hmem2 : V ∈ ([placeholderOption] ++
        data.carpetas.map optionOfCarpeta).map SelOption.value := by
      rw [List.map_append, List.map_map]
      refine List.mem_append_right _ ?_
      exact hmem
    simp only [onSuccess, foldl_appendOption, setHtmlPlaceholder, hrec]
    rw [if_pos hV, setVal, if_pos hmem2]

end FiltroCarpetas

namespace FiltroCarpetas

/-- A page whose dependent selector records a previous selection `"7"`
and with one fetch in flight. -/
def stateSel : PageState :=
  { state0 with
    carpeta := { freshCarpeta with dataSelected := some "7" }
    pending := [mkRequest state0.pathname "5"] }

/-- Witness for C6: with `data-selected = "7"` recorded and a response
containing the record with id `"7"`, the selected value after
repopulation is `"7"`. -/
theorem c6_restores_recorded_selection_witness :
    0 < stateSel.pending.length ∧
    stateSel.carpeta.dataSelected = some "7" ∧
    "7" ∈ resp7.carpetas.map Carpeta.id ∧
    (step stateSel (Event.ajaxSuccess 0 resp7)).carpeta.selectedVal =
      some "7" :=
  ⟨by decide, rfl, by decide,
    c6_restores_recorded_selection stateSel 0 resp7 "7" (by decide) rfl
      (by decide)⟩

theorem eraseIdx_append_singleton {α : Type} (l : List α) (a : α) :
    (l ++ [a]).eraseIdx l.length = l := by
  induction l with
  | nil => rfl
  | cons x xs ih => simp [List.eraseIdx, ih]

/-- C7. On initial page load: with a non-empty parent value already
selected, the `document.ready` handler performs exactly the same
enable-then-fetch step as a parent change to that value; with an empty
parent value it only disables the dependent selector — no fetch, no
option change. -/
theorem c7_page_load_init (s : PageState) :
    (s.numeralVal ≠ "" →
      pageLoadInit s = step s (Event.changeNumeral s.numeralVal) ∧
      (pageLoadInit s).carpeta.disabled = false ∧
      (pageLoadInit s).issued =
        s.issued ++ [mkRequest s.pathname s.numeralVal]) ∧
    (s.numeralVal = "" →
      (pageLoadInit s).carpeta.disabled = true ∧
      (pageLoadInit s).issued = s.issued ∧
      (pageLoadInit s).pending = s.pending ∧
      (pageLoadInit s).carpeta.options = s.carpeta.options) := by
  constructor
  · intro h
    refine ⟨?_, ?_, ?_⟩
    · simp [pageLoadInit, h, step]
    · simp [pageLoadInit, h, filtrarCarpetas]
    · simp [pageLoadInit, h, filtrarCarpetas]
  · intro h
    simp [pageLoadInit, h]

/-- An edit-mode page: the parent selector already holds `"5"`. -/
def stateEdit : PageState :=
  { state0 with numeralVal := "5" }

/-- Witness for C7 at concrete pages: the edit-mode page triggers the
same step as a change to `"5"`; the fresh page is left disabled with no
fetch. -/
theorem c7_page_load_init_witness :
    (pageLoadInit stateEdit =
        step stateEdit (Event.changeNumeral stateEdit.numeralVal) ∧
      (pageLoadInit stateEdit).carpeta.disabled = false ∧
      (pageLoadInit stateEdit).issued = stateEdit.issued ++
        [mkRequest stateEdit.pathname stateEdit.numeralVal]) ∧
    ((pageLoadInit state0).carpeta.disabled = true ∧
      (pageLoadInit state0).issued = state0.issued ∧
      (pageLoadInit state0).pending = state0.pending ∧
      (pageLoadInit state0).carpeta.options = state0.carpeta.options) :=
  ⟨(c7_page_load_init stateEdit).1 (by decide),
    (c7_page_load_init state0).2 rfl⟩

end FiltroCarpetas

namespace FiltroCarpetas

/-- Counterexample to C1 as stated: after a successful fetch for `"5"`
populated the selector, a change to `"9"` whose fetch fails leaves the
stale option for `"5"` in place — the selector does not end with exactly
the placeholder option, although the diagnostic is logged. -/
theorem c1_fetch_failure_counterexample :
    (run state0 [Event.changeNumeral "5", Event.ajaxSuccess 0 resp7,
        Event.changeNumeral "9", Event.ajaxError 0]).carpeta.options ≠
      [placeholderOption] ∧
    (run state0 [Event.changeNumeral "5", Event.ajaxSuccess 0 resp7,
        Event.changeNumeral "9", Event.ajaxError 0]).carpeta.options =
      [placeholderOption, optionOfCarpeta carpeta7] ∧
    (run state0 [Event.changeNumeral "5", Event.ajaxSuccess 0 resp7,
        Event.changeNumeral "9", Event.ajaxError 0]).carpeta.disabled =
      false ∧
    (run state0 [Event.changeNumeral "5", Event.ajaxSuccess 0 resp7,
        Event.changeNumeral "9", Event.ajaxError 0]).errorLog =
      ["Error al cargar las carpetas"] :=
  ⟨by decide, by decide, by decide, by decide⟩

/-- C1 amended: for every fetch failure after a parent change to a
non-empty value, the error handler only logs the diagnostic — the
dependent selector stays enabled and its option set is exactly what it
was before the change (so placeholder-only precisely when it already
was), exactly the one original request was issued (no retry), and the
handler is a total function (no exception propagates). -/
theorem c1_fetch_failure_leaves_options (s : PageState) (v : String)
    (hv : v ≠ "") :
    (step (step s (Event.changeNumeral v))
        (Event.ajaxError s.pending.length)).carpeta.disabled = false ∧
    (step (step s (Event.changeNumeral v))
        (Event.ajaxError s.pending.length)).carpeta.options =
      s.carpeta.options ∧
    (step (step s (Event.changeNumeral v))
        (Event.ajaxError s.pending.length)).issued =
      s.issued ++ [mkRequest s.pathname v] ∧
    (step (step s (Event.changeNumeral v))
        (Event.ajaxError s.pending.length)).pending = s.pending ∧
    (step (step s (Event.changeNumeral v))
        (Event.ajaxError s.pending.length)).errorLog =
      s.errorLog ++ ["Error al cargar las carpetas"] := by
  rw [step_changeNumeral_nonempty s v hv,
    step_ajaxError_of_lt _ _ (by simp)]
  exact ⟨rfl, rfl, rfl, eraseIdx_append_singleton s.pending _, rfl⟩

/-- Witness for the amended C1 on the fresh page: the failed fetch for
`"5"` leaves the selector enabled with the placeholder it had before,
one logged diagnostic and no retry. -/
theorem c1_fetch_failure_leaves_options_witness :
    (step (step state0 (Event.changeNumeral "5"))
        (Event.ajaxError state0.pending.length)).carpeta.disabled = false ∧
    (step (step state0 (Event.changeNumeral "5"))
        (Event.ajaxError state0.pending.length)).carpeta.options =
      state0.carpeta.options ∧
    (step (step state0 (Event.changeNumeral "5"))
        (Event.ajaxError state0.pending.length)).issued =
      state0.issued ++ [mkRequest state0.pathname "5"] ∧
    (step (step state0 (Event.changeNumeral "5"))
        (Event.ajaxError state0.pending.length)).pending = state0.pending ∧
    (step (step state0 (Event.changeNumeral "5"))
        (Event.ajaxError state0.pending.length)).errorLog =
      state0.errorLog ++ ["Error al cargar las carpetas"] :=
  c1_fetch_failure_leaves_options state0 "5" (by decide)

/-- Counterexample to C2 as stated: the parent changes from `"5"` to the
empty value before the fetch for `"5"` resolves; the late response then
does populate the selector — the final state is disabled but holds the
stale option for `"5"` besides the placeholder. -/
theorem c2_stale_response_counterexample :
    (run state0 [Event.changeNumeral "5", Event.changeNumeral "",
        Event.ajaxSuccess 0 resp7]).numeralVal = "" ∧
    (run state0 [Event.changeNumeral "5", Event.changeNumeral "",
        Event.ajaxSuccess 0 resp7]).carpeta.disabled = true ∧
    (run state0 [Event.changeNumeral "5", Event.changeNumeral "",
        Event.ajaxSuccess 0 resp7]).carpeta.options ≠
      [placeholderOption] ∧
    (run state0 [Event.changeNumeral "5", Event.changeNumeral "",
        Event.ajaxSuccess 0 resp7]).carpeta.options =
      [placeholderOption, optionOfCarpeta carpeta7] :=
  ⟨by decide, by decide, by decide, by decide⟩

/-- C2 amended: the success callback installs whichever response arrives,
regardless of the currently selected parent value — the option set
reflects the most recently arrived response (last arrival wins), while
the disabled state and the parent value are untouched.  In particular a
response arriving after the parent was reset to empty still populates
the (then disabled) selector. -/
theorem c2_last_arrival_wins (s : PageState) (i : Nat)
    (data : AjaxResponse) (h : i < s.pending.length) :
    (step s (Event.ajaxSuccess i data)).carpeta.options =
      placeholderOption :: data.carpetas.map optionOfCarpeta ∧
    (step s (Event.ajaxSuccess i data)).carpeta.disabled =
      s.carpeta.disabled ∧
    (step s (Event.ajaxSuccess i data)).numeralVal = s.numeralVal := by
  rw [step_ajaxSuccess_of_lt _ _ _ h]
  exact ⟨onSuccess_options _ _, onSuccess_disabled _ _, rfl⟩

/-- Witness for the amended C2 at the raced state reached by changing the
parent to `"5"` and then back to empty while the fetch is in flight. -/
theorem c2_last_arrival_wins_witness :
    0 < (run state0 [Event.changeNumeral "5",
        Event.changeNumeral ""]).pending.length ∧
    ((step (run state0 [Event.changeNumeral "5", Event.changeNumeral ""])
        (Event.ajaxSuccess 0 resp7)).carpeta.options =
      placeholderOption :: resp7.carpetas.map optionOfCarpeta ∧
    (step (run state0 [Event.changeNumeral "5", Event.changeNumeral ""])
        (Event.ajaxSuccess 0 resp7)).carpeta.disabled =
      (run state0 [Event.changeNumeral "5",
        Event.changeNumeral ""]).carpeta.disabled ∧
    (step (run state0 [Event.changeNumeral "5", Event.changeNumeral ""])
        (Event.ajaxSuccess 0 resp7)).numeralVal =
      (run state0 [Event.changeNumeral "5",
        Event.changeNumeral ""]).numeralVal) :=
  ⟨by decide,
    c2_last_arrival_wins
      (run state0 [Event.changeNumeral "5", Event.changeNumeral ""]) 0
      resp7 (by decide)⟩

end FiltroCarpetas

namespace FiltroCarpetas

/-- Counterexample to C9 as stated: not every line of the file is a
comment — line 3 (index 2) consists of four spaces and does not start
with `//`. -/
theorem c9_all_comment_counterexample :
    fileLines.all isCommentLine = false ∧
    fileLines.get? 2 = some "    " ∧
    isCommentLine "    " = false :=
  ⟨rfl, rfl, rfl⟩

/-- C9 amended: every one of the 81 lines of the file is either a line
comment (starting with `//`) or whitespace-only, so the script as shipped
contains no statement outside comments and executes no logic. -/
theorem c9_every_line_inert :
    fileLines.all inertLine = true ∧ fileLines.length = 81 :=
  ⟨rfl, rfl⟩

theorem domStep_unbound (d : DomState) (hb : d.handlerBound = false)
    (e : Event) :
    ∃ v, domStep d e = { d with page := { d.page with numeralVal := v } } := by
  cases e with
  | changeNumeral w => exact ⟨w, by simp [domStep, hb]⟩
  | ajaxSuccess i data =>
      have h : domStep d (Event.ajaxSuccess i data) = d := by
        simp [domStep, hb]
      exact ⟨d.page.numeralVal, h⟩
  | ajaxError i =>
      have h : domStep d (Event.ajaxError i) = d := by
        simp [domStep, hb]
      exact ⟨d.page.numeralVal, h⟩

theorem domRun_unbound (es : List Event) (d : DomState)
    (hb : d.handlerBound = false) :
    (domRun d es).page.carpeta = d.page.carpeta ∧
    (domRun d es).page.pending = d.page.pending ∧
    (domRun d es).page.issued = d.page.issued ∧
    (domRun d es).page.errorLog = d.page.errorLog ∧
    (domRun d es).todasLasCarpetas = d.todasLasCarpetas ∧
    (domRun d es).carpetasOriginales = d.carpetasOriginales ∧
    (domRun d es).handlerBound = false := by
  induction es generalizing d with
  | nil => exact ⟨rfl, rfl, rfl, rfl, rfl, rfl, hb⟩
  | cons e es ih =>
      obtain ⟨v, hv⟩ := domStep_unbound d hb e
      have h1 : domRun d (e :: es) = domRun (domStep d e) es := rfl
      rw [h1, hv]
      exact ih _ hb

/-- C10. When `#id_numeral` or `#id_carpeta` is missing from the page,
the ready handler does nothing: it saves no options and binds no change
handler, and under every subsequent event sequence the script issues no
fetch, logs nothing and never mutates the dependent selector (a user
change still moves the parent's own value, but the script reacts to
nothing). -/
theorem c10_missing_field_inert (d : DomState) (es : List Event)
    (hpresent : (d.numeralPresent && d.carpetaPresent) = false)
    (hb : d.handlerBound = false) :
    scriptInit d = d ∧
    (domRun (scriptInit d) es).page.carpeta = d.page.carpeta ∧
    (domRun (scriptInit d) es).page.pending = d.page.pending ∧
    (domRun (scriptInit d) es).page.issued = d.page.issued ∧
    (domRun (scriptInit d) es).page.errorLog = d.page.errorLog ∧
    (domRun (scriptInit d) es).todasLasCarpetas = d.todasLasCarpetas ∧
    (domRun (scriptInit d) es).carpetasOriginales = d.carpetasOriginales ∧
    (domRun (scriptInit d) es).handlerBound = false := by
  have hinit : scriptInit d = d := by simp [scriptInit, hpresent]
  rw [hinit]
  exact ⟨rfl, domRun_unbound es d hb⟩

/-- A page rendered without the dependent `#id_carpeta` control. -/
def domMissing : DomState :=
  { numeralPresent := true
    carpetaPresent := false
    page := state0
    todasLasCarpetas := none
    carpetasOriginales := none
    handlerBound := false }

/-- Witness for C10 on a page missing the dependent control, under a
change event followed by an unexpected AJAX callback. -/
theorem c10_missing_field_inert_witness :
    scriptInit domMissing = domMissing ∧
    (domRun (scriptInit domMissing)
        [Event.changeNumeral "5", Event.ajaxError 0]).page.carpeta =
      domMissing.page.carpeta ∧
    (domRun (scriptInit domMissing)
        [Event.changeNumeral "5", Event.ajaxError 0]).page.pending =
      domMissing.page.pending ∧
    (domRun (scriptInit domMissing)
        [Event.changeNumeral "5", Event.ajaxError 0]).page.issued =
      domMissing.page.issued ∧
    (domRun (scriptInit domMissing)
        [Event.changeNumeral "5", Event.ajaxError 0]).page.errorLog =
      domMissing.page.errorLog ∧
    (domRun (scriptInit domMissing)
        [Event.changeNumeral "5", Event.ajaxError 0]).todasLasCarpetas =
      domMissing.todasLasCarpetas ∧
    (domRun (scriptInit domMissing)
        [Event.changeNumeral "5", Event.ajaxError 0]).carpetasOriginales =
      domMissing.carpetasOriginales ∧
    (domRun (scriptInit domMissing)
        [Event.changeNumeral "5", Event.ajaxError 0]).handlerBound =
      false :=
  c10_missing_field_inert domMissing [Event.changeNumeral "5",
    Event.ajaxError 0] rfl rfl

end FiltroCarpetas
